import Mathlib

/-
Shallow embedding of the bank-statement-converter service (Python sources:
main.py, api_calls.py, utils.py, api/index.py).  Pure data manipulation is
translated to Lean functions; the network is an explicit environment
(oracle) parameter; the session store is passed as explicit state.
-/

namespace BankConv

/-- Character-list comparison: `listLeads n h` is true when `n` occurs at the
head of `h` (models the start-of-string case of Python's `in`). -/
def listLeads : List Char → List Char → Bool
  | [], _ => true
  | _ :: _, [] => false
  | a :: as, b :: bs => a == b && listLeads as bs

/-- `listHasSub n h` is true when `n` occurs contiguously inside `h`. -/
def listHasSub (needle : List Char) : List Char → Bool
  | [] => needle.isEmpty
  | c :: rest => listLeads needle (c :: rest) || listHasSub needle rest

/-- Python's `needle in hay` on strings. -/
def strContains (hay needle : String) : Bool :=
  listHasSub needle.data hay.data

/-- Python's `str.lower()`, for the ASCII range the marker matching uses. -/
def strToLower (s : String) : String :=
  String.mk (s.data.map fun c =>
    if 65 ≤ c.toNat ∧ c.toNat ≤ 90 then Char.ofNat (c.toNat + 32) else c)

/-- An `<a>` tag as seen by BeautifulSoup: `text` is `tag.string` (absent when
the tag has several children), `href` the `href` attribute when present. -/
structure Anchor where
  text : Option String
  href : Option String
deriving Repr, DecidableEq

/-- The observable content of an HTML document for this program: the `<a>`
tags in document order, plus whether parsing / searching raises. -/
structure Html where
  parseFails : Bool
  anchors : List Anchor
deriving Repr, DecidableEq

/-- The string filter used by utils.extract_verification_link_from_html:
`lambda text: text and 'verify my email' in text.lower()`. -/
def anchorTextMarker (a : Anchor) : Bool :=
  match a.text with
  | some t => strContains (strToLower t) "verify my email"
  | none => false

/-- utils.extract_verification_link_from_html: find the first `<a>` whose
string contains 'verify my email' (case-insensitively); return its href if
the attribute is present, otherwise None; any exception is caught and
yields None (modelled by `parseFails`). -/
def extract_verification_link_from_html (h : Html) : Option String :=
  if h.parseFails then none
  else
    match h.anchors.find? anchorTextMarker with
    | some a => a.href
    | none => none

/-- The exception classes the Python code can surface: `Exception(msg)`
(generic), `httpx.HTTPStatusError` from raise_for_status,
`httpx.RequestError` (network), and FastAPI's `HTTPException`. -/
inductive PyExc where
  | generic (msg : String)
  | httpStatusError (code : Nat)
  | requestError (msg : String)
  | httpException (status : Nat) (detail : String)
deriving Repr, DecidableEq

deriving instance DecidableEq for Except

/-- Whether an exception is the builtin generic `Exception` class. -/
def isGenericExc : PyExc → Bool
  | .generic _ => true
  | _ => false

/-- One inbox listing entry (`item` of the mailbox JSON `result` array). -/
structure InboxMessage where
  id : String
  subject : String
deriving Repr, DecidableEq

/-- What one iteration of api_calls.check_inbox observes from the mailbox:
a network error (`httpx.RequestError`, caught), a non-2xx response whose
raise_for_status raises `httpx.HTTPStatusError` (NOT caught — only
RequestError is), or a parsed listing `{success, result}`. -/
inductive PollResult where
  | netError
  | httpError (code : Nat)
  | listing (success : Bool) (msgs : List InboxMessage)
deriving Repr, DecidableEq

/-- The subject filter of check_inbox:
`"verify email" in item.get("subject", "").lower()`. -/
def subjectHasMarker (m : InboxMessage) : Bool :=
  strContains (strToLower m.subject) "verify email"

/-- First listing entry whose subject carries the marker, if any. -/
def findVerifyMsg (msgs : List InboxMessage) : Option InboxMessage :=
  msgs.find? subjectHasMarker

/-- api_calls.check_inbox: `max_retries = 15`. -/
def MAX_INBOX_RETRIES : Nat := 15

/-- The retry loop of api_calls.check_inbox, reading poll `i` from the
environment with `rem` retries left.  A network error is logged and the
loop continues; an HTTPStatusError escapes; a listing with
`success and result` truthy is scanned for the first marker subject, whose
id is returned; otherwise the loop sleeps and retries.  Exhaustion raises
the generic `Exception("Verification email did not arrive in time.")`. -/
def check_inbox_from (env : Nat → PollResult) : Nat → Nat → Except PyExc String
  | _, 0 => .error (.generic "Verification email did not arrive in time.")
  | i, rem + 1 =>
    match env i with
    | .netError => check_inbox_from env (i + 1) rem
    | .httpError c => .error (.httpStatusError c)
    | .listing success msgs =>
      if success && !msgs.isEmpty then
        match findVerifyMsg msgs with
        | some m => .ok m.id
        | none => check_inbox_from env (i + 1) rem
      else check_inbox_from env (i + 1) rem

/-- api_calls.check_inbox on a poll environment. -/
def check_inbox (env : Nat → PollResult) : Except PyExc String :=
  check_inbox_from env 0 MAX_INBOX_RETRIES

/-- True when an iteration of check_inbox neither returns nor raises, so
the loop moves on to the next poll. -/
def pollAdvances : PollResult → Bool
  | .netError => true
  | .httpError _ => false
  | .listing success msgs => !(success && (findVerifyMsg msgs).isSome)

/-- What one iteration of api_calls.poll_and_convert_statement observes:
a response with a status code and body, or a network error
(`httpx.RequestError`, caught). -/
inductive ConvResult where
  | response (code : Nat) (body : String)
  | netError
deriving Repr, DecidableEq

/-- api_calls.poll_and_convert_statement: `max_wait_time = 90`. -/
def max_wait_time : Nat := 90

/-- api_calls.poll_and_convert_statement: `poll_interval = 3`. -/
def poll_interval : Nat := 3

/-- The poll loop of api_calls.poll_and_convert_statement, also counting the
POST requests performed.  200 returns the body; 400 ("not ready") sleeps and
retries; any other status goes through raise_for_status, which raises
HTTPStatusError for codes >= 400 (uncaught — only RequestError is caught)
and does nothing below 400, letting the loop continue; a network error is
logged, sleeps, and retries.  Exhausting `max_wait_time // poll_interval`
iterations raises the generic conversion-timeout `Exception`. -/
def poll_convert_from (uuid : String) (env : Nat → ConvResult) :
    Nat → Nat → Except PyExc String × Nat
  | _, 0 => (.error (.generic ("Conversion timed out for file " ++ uuid ++ ".")), 0)
  | i, rem + 1 =>
    match env i with
    | .netError =>
      let r := poll_convert_from uuid env (i + 1) rem
      (r.1, r.2 + 1)
    | .response code body =>
      if code == 200 then (.ok body, 1)
      else if code == 400 then
        let r := poll_convert_from uuid env (i + 1) rem
        (r.1, r.2 + 1)
      else if 400 ≤ code then (.error (.httpStatusError code), 1)
      else
        let r := poll_convert_from uuid env (i + 1) rem
        (r.1, r.2 + 1)

/-- api_calls.poll_and_convert_statement on a response environment; the
second component is the number of conversion POSTs performed. -/
def poll_and_convert_statement (uuid : String) (env : Nat → ConvResult) :
    Except PyExc String × Nat :=
  poll_convert_from uuid env 0 (max_wait_time / poll_interval)

/-- True when an iteration of poll_and_convert_statement neither returns nor
raises: a 400 "not ready", a network error, or a sub-400 non-200 status. -/
def convAdvances : ConvResult → Bool
  | .netError => true
  | .response code _ => !(code == 200) && (code == 400 || !(400 ≤ code))

/-- The persisted record of main.py: `{"token": ..., "usage_count": ...}`. -/
structure Session where
  token : Option String
  usage_count : Nat
deriving Repr, DecidableEq

/-- The session file of main.py: missing, unreadable (IOError or
JSONDecodeError on read), or holding a session. -/
inductive StoreState where
  | absent
  | corrupt
  | stored (s : Session)
deriving Repr, DecidableEq

/-- main.py: `MAX_USAGE = 5`. -/
def MAX_USAGE : Nat := 5

/-- main.py: `MAX_REGISTRATION_ATTEMPTS = 5`. -/
def MAX_REGISTRATION_ATTEMPTS : Nat := 5

/-- The session returned when the file is missing or unreadable. -/
def defaultSession : Session := { token := none, usage_count := 0 }

/-- main.load_session: read the file; on a missing file, or on IOError /
JSONDecodeError, return the default empty session. -/
def load_session : StoreState → Session
  | .absent => defaultSession
  | .corrupt => defaultSession
  | .stored s => s

/-- main.save_session: overwrite the file wholesale. -/
def save_session (s : Session) (_ : StoreState) : StoreState := .stored s

/-- Python truthiness of `session.get("token")`: false for absent and for
the empty string. -/
def tokenTruthy : Option String → Bool
  | none => false
  | some t => !(t == "")

/-- The upstream behaviour one registration attempt of
main.create_new_session observes: the outcome of register_user, the poll
environment fed to check_inbox, the html_content produced by read_email
(`none` models a falsy html_content), the outcome of verify_email_account,
and the outcome of login. -/
structure AttemptEnv where
  register : Option PyExc
  inboxPolls : Nat → PollResult
  emailHtml : Except PyExc (Option Html)
  verify : Option PyExc
  login : Except PyExc String

/-- The body of one attempt of main.create_new_session, up to (and
excluding) save_session: register, check_inbox, read_email (raising on
falsy content), extract_verification_link_from_html (raising on none),
verify_email_account, login, then the fresh session with usage_count 0. -/
def run_attempt (e : AttemptEnv) : Except PyExc Session :=
  match e.register with
  | some exc => .error exc
  | none =>
    match check_inbox e.inboxPolls with
    | .error exc => .error exc
    | .ok _emailId =>
      match e.emailHtml with
      | .error exc => .error exc
      | .ok none => .error (.generic "Failed to read email content, cannot verify.")
      | .ok (some html) =>
        match extract_verification_link_from_html html with
        | none => .error (.generic "Failed to extract verification link from email.")
        | some _link =>
          match e.verify with
          | some exc => .error exc
          | none =>
            match e.login with
            | .error exc => .error exc
            | .ok token => .ok { token := some token, usage_count := 0 }

/-- The attempt loop of main.create_new_session, with the store threaded
through and the number of attempts performed counted.  Any exception in an
attempt is caught at the attempt boundary, logged, and the loop goes on to
the next attempt; a successful attempt saves the new session and returns
it; exhaustion raises the generic exhaustion `Exception`. -/
def create_new_session_from (env : Nat → AttemptEnv) (store : StoreState) :
    Nat → Nat → Except PyExc Session × StoreState × Nat
  | _, 0 => (.error (.generic "Failed to create a new session after multiple attempts."), store, 0)
  | i, rem + 1 =>
    match run_attempt (env i) with
    | .ok s => (.ok s, save_session s store, 1)
    | .error _ =>
      let r := create_new_session_from env store (i + 1) rem
      (r.1, r.2.1, r.2.2 + 1)

/-- main.create_new_session on an attempt environment: result, resulting
store, and number of attempts performed. -/
def create_new_session (env : Nat → AttemptEnv) (store : StoreState) :
    Except PyExc Session × StoreState × Nat :=
  create_new_session_from env store 0 MAX_REGISTRATION_ATTEMPTS

/-- main.get_valid_token: under the state lock, load the session; if the
token is falsy or usage_count >= MAX_USAGE, run create_new_session and use
its session; return the token.  The third component counts the calls to
create_new_session (the provisioning sequences triggered). -/
def get_valid_token (env : Nat → AttemptEnv) (store : StoreState) :
    Except PyExc String × StoreState × Nat :=
  if tokenTruthy (load_session store).token = false ∨
      MAX_USAGE ≤ (load_session store).usage_count then
    match create_new_session env store with
    | (.ok s, st, _) => (.ok (s.token.getD ""), st, 1)
    | (.error e, st, _) => (.error e, st, 1)
  else
    (.ok ((load_session store).token.getD ""), store, 0)

/-- The usage-recording block of main.convert_statement_endpoint (run after
a successful conversion, under the state lock): load the session, add 1 to
usage_count, persist. -/
def record_usage (store : StoreState) : StoreState :=
  let session := load_session store
  save_session { session with usage_count := session.usage_count + 1 } store

/-- The Redis state of api/index.py: whether the client connected, and the
`credits` and `auth_token` keys (absent when never set). -/
structure RedisState where
  available : Bool
  credits : Option Int
  token : Option String
deriving Repr, DecidableEq

/-- The anchor filter of AccountManager.get_verification_link:
BeautifulSoup `find` with the compiled pattern whose search succeeds
exactly when the literal, case-sensitive text `Verify my email` occurs in
`tag.string` (the surrounding whitespace groups match the empty string). -/
def vLinkMatches (a : Anchor) : Bool :=
  match a.text with
  | some t => strContains t "Verify my email"
  | none => false

/-- What one iteration of AccountManager.get_verification_link observes:
any raised exception (all are caught by the broad `except Exception`), a
listing whose `success`/`result` guard is falsy, or the html content of the
first listed message (the code takes `result[0]` without a subject
filter). -/
inductive VPoll where
  | raiseExc
  | noResult
  | found (html : Html)

/-- The 3-iteration poll loop of AccountManager.get_verification_link: on
each pass, any exception is caught and the loop sleeps and retries; when a
message body is obtained, the first anchor matched by `vLinkMatches` with
an `href` is returned; otherwise the loop retries; after the budget it
returns None. -/
def get_verification_link_from (env : Nat → VPoll) : Nat → Nat → Option String
  | _, 0 => none
  | i, rem + 1 =>
    match env i with
    | .raiseExc => get_verification_link_from env (i + 1) rem
    | .noResult => get_verification_link_from env (i + 1) rem
    | .found html =>
      if html.parseFails then get_verification_link_from env (i + 1) rem
      else
        match html.anchors.find? vLinkMatches with
        | some a =>
          match a.href with
          | some link => some link
          | none => get_verification_link_from env (i + 1) rem
        | none => get_verification_link_from env (i + 1) rem

/-- AccountManager.get_verification_link on an inbox environment. -/
def get_verification_link (env : Nat → VPoll) : Option String :=
  get_verification_link_from env 0 3

/-- True when an iteration of get_verification_link finds no returnable
link, so the loop sleeps and moves on. -/
def vpollAdvances : VPoll → Bool
  | .raiseExc => true
  | .noResult => true
  | .found html =>
    html.parseFails || ((html.anchors.find? vLinkMatches).bind Anchor.href).isNone

/-- AccountManager.create_new_account, with the register / verification /
login interactions abstracted into one provisioning outcome (`.ok token`
when login yields a token, `.error e` when any step raises).  When the
Redis client is unavailable it raises HTTPException 503; on success it
sets `auth_token` to the token and `credits` to 5. -/
def create_new_account (provision : Except PyExc String) (st : RedisState) :
    Except PyExc String × RedisState :=
  if !st.available then
    (.error (.httpException 503 "State management service (Redis) is not available."), st)
  else
    match provision with
    | .error e => (.error e, st)
    | .ok token => (.ok token, { st with credits := some 5, token := some token })

/-- `int(credits_bytes) if credits_bytes else 0`: the credits value read at
the top of AccountManager.get_valid_token, 0 when the key is absent. -/
def creditsOf (st : RedisState) : Int :=
  match st.credits with
  | some c => c
  | none => 0

/-- AccountManager.get_valid_token: read `credits` (0 when the key is
absent); when credits <= 0, or when `auth_token` is absent, call
create_new_account; otherwise return the stored token.  The third
component counts the calls to create_new_account. -/
def am_get_valid_token (provision : Except PyExc String) (st : RedisState) :
    Except PyExc String × RedisState × Nat :=
  if creditsOf st ≤ 0 then
    let r := create_new_account provision st
    (r.1, r.2, 1)
  else
    match st.token with
    | none =>
      let r := create_new_account provision st
      (r.1, r.2, 1)
    | some t => (.ok t, st, 0)

/-- AccountManager.use_credit: when the client is available, atomically
decrement `credits` (Redis DECR treats a missing key as 0). -/
def use_credit (st : RedisState) : RedisState :=
  if st.available then { st with credits := some (st.credits.getD 0 - 1) } else st

/-- What an upstream call of the index.py endpoint (upload or convert)
produces: a body on success, an `httpx.HTTPStatusError` with a status code
and response text from raise_for_status, or any other exception. -/
inductive CallResult where
  | ok (body : String)
  | httpStatus (code : Nat) (text : String)
  | otherExc (msg : String)
deriving Repr, DecidableEq

/-- The except clauses of index.convert_bank_statement: an
httpx.HTTPStatusError with status 401 first sets `credits` to 0 in Redis
(when the client is available), and every HTTPStatusError is re-raised as
an HTTPException with the upstream status; any other exception becomes an
HTTPException 500. -/
def endpoint_handle : PyExc → String → RedisState → Except PyExc String × RedisState
  | .httpStatusError code, text, st =>
    let st2 := if code == 401 && st.available then { st with credits := some 0 } else st
    (.error (.httpException code ("Error from backend: " ++ text)), st2)
  | e, _, st =>
    (.error (.httpException 500 ("An unexpected error occurred: " ++ reprStr e)), st)

/-- index.convert_bank_statement: guard on Redis availability (503) and on
the .pdf filename (400); then try get_valid_token, upload
(raise_for_status), convert (raise_for_status), use_credit, and return the
CSV text; exceptions go through `endpoint_handle`.  The third component
counts the provisioning sequences (create_new_account calls). -/
def convert_bank_statement (filenamePdf : Bool) (provision : Except PyExc String)
    (upload convert : CallResult) (st : RedisState) :
    Except PyExc String × RedisState × Nat :=
  if !st.available then
    (.error (.httpException 503 "State management service is currently unavailable. Please try again later."), st, 0)
  else if !filenamePdf then
    (.error (.httpException 400 "Invalid file type. Please upload a PDF."), st, 0)
  else
    match am_get_valid_token provision st with
    | (.error e, st1, n) =>
      let r := endpoint_handle e "" st1
      (r.1, r.2, n)
    | (.ok _token, st1, n) =>
      match upload with
      | .httpStatus code text =>
        let r := endpoint_handle (.httpStatusError code) text st1
        (r.1, r.2, n)
      | .otherExc msg =>
        let r := endpoint_handle (.generic msg) "" st1
        (r.1, r.2, n)
      | .ok _uuid =>
        match convert with
        | .httpStatus code text =>
          let r := endpoint_handle (.httpStatusError code) text st1
          (r.1, r.2, n)
        | .otherExc msg =>
          let r := endpoint_handle (.generic msg) "" st1
          (r.1, r.2, n)
        | .ok csvText => (.ok csvText, use_credit st1, n)

/-- `find?` skips a non-matching block and returns the first match. -/
theorem find_first_match {α : Type} (p : α → Bool) (pre rest : List α) (m : α)
    (hpre : ∀ x ∈ pre, p x = false) (hm : p m = true) :
    (pre ++ m :: rest).find? p = some m := by
  induction pre with
  | nil => simp [List.find?_cons, hm]
  | cons a as ih =>
    have ha : p a = false := hpre a (by simp)
    simp only [List.cons_append, List.find?_cons, ha]
    exact ih (fun x hx => hpre x (by simp [hx]))

/-- An attempt of create_new_session that returns a session returns one
with a present token and usage_count 0. -/
theorem run_attempt_ok (e : AttemptEnv) (s : Session) (h : run_attempt e = .ok s) :
    s.usage_count = 0 ∧ ∃ tk, s.token = some tk := by
  obtain ⟨reg, polls, html, ver, lg⟩ := e
  simp only [run_attempt] at h
  cases reg with
  | some exc => cases h
  | none =>
  cases hcb : check_inbox polls with
  | error exc => rw [hcb] at h; cases h
  | ok eid =>
  rw [hcb] at h
  cases html with
  | error exc => cases h
  | ok oh =>
  cases oh with
  | none => cases h
  | some html2 =>
  dsimp only at h
  cases hex : extract_verification_link_from_html html2 with
  | none => rw [hex] at h; cases h
  | some lnk =>
  rw [hex] at h
  cases ver with
  | some exc => cases h
  | none =>
  cases lg with
  | error exc => cases h
  | ok tok =>
  cases h
  exact ⟨rfl, tok, rfl⟩

/-- Whether an attempt of create_new_session raises. -/
def attemptFails (e : AttemptEnv) : Bool :=
  match run_attempt e with
  | .ok _ => false
  | .error _ => true

/-- A run of the create_new_session loop that returns a session has saved
exactly that session, whose usage_count is 0 and whose token is present. -/
theorem create_new_session_from_ok (env : Nat → AttemptEnv) (store : StoreState) :
    ∀ rem i s st n, create_new_session_from env store i rem = (.ok s, st, n) →
      st = .stored s ∧ s.usage_count = 0 ∧ ∃ tk, s.token = some tk := by
  intro rem
  induction rem with
  | zero =>
    intro i s st n h
    simp [create_new_session_from] at h
  | succ k ih =>
    intro i s st n h
    unfold create_new_session_from at h
    cases hr : run_attempt (env i) with
    | ok s2 =>
      rw [hr] at h
      simp only [Prod.mk.injEq, Except.ok.injEq] at h
      obtain ⟨hs, hst, -⟩ := h
      obtain ⟨hu, tk, htk⟩ := run_attempt_ok _ _ hr
      subst hs
      refine ⟨hst.symm, hu, tk, htk⟩
    | error e2 =>
      rw [hr] at h
      simp only [Prod.mk.injEq] at h
      obtain ⟨h1, h2, -⟩ := h
      exact ih (i + 1) s st (create_new_session_from env store (i + 1) k).2.2
        (by rw [← h1, ← h2])

/-- When every remaining attempt raises, the create_new_session loop runs
them all, leaves the store untouched, and raises the exhaustion error. -/
theorem create_new_session_from_all_fail (env : Nat → AttemptEnv) (store : StoreState) :
    ∀ rem i, (∀ j, j < rem → attemptFails (env (i + j)) = true) →
      create_new_session_from env store i rem =
        (.error (.generic "Failed to create a new session after multiple attempts."),
          store, rem) := by
  intro rem
  induction rem with
  | zero => intro i _; rfl
  | succ k ih =>
    intro i h
    have h0 : attemptFails (env i) = true := by
      have := h 0 (by omega)
      simpa using this
    unfold create_new_session_from
    cases hr : run_attempt (env i) with
    | ok s2 => rw [attemptFails, hr] at h0; cases h0
    | error e2 =>
      have hrec := ih (i + 1) (fun j hj => by
        have := h (j + 1) (by omega)
        have harith : i + (j + 1) = i + 1 + j := by omega
        rwa [harith] at this)
      rw [hrec]

/-- get_valid_token triggers exactly one provisioning sequence whenever the
loaded session has a falsy token or an exhausted usage_count. -/
theorem get_valid_token_count_one (env : Nat → AttemptEnv) (store : StoreState)
    (h : tokenTruthy (load_session store).token = false ∨
      MAX_USAGE ≤ (load_session store).usage_count) :
    (get_valid_token env store).2.2 = 1 := by
  unfold get_valid_token
  rw [if_pos h]
  rcases hc : create_new_session env store with ⟨r, st, k⟩
  cases r <;> rfl

/-- When every remaining poll fails to find a marker subject (and none
raises an HTTPStatusError), the check_inbox loop exhausts its budget and
raises the timeout exception. -/
theorem check_inbox_from_timeout (env : Nat → PollResult) :
    ∀ rem i, (∀ j, j < rem → pollAdvances (env (i + j)) = true) →
      check_inbox_from env i rem =
        .error (.generic "Verification email did not arrive in time.") := by
  intro rem
  induction rem with
  | zero => intro i _; rfl
  | succ k ih =>
    intro i h
    have hrec : check_inbox_from env (i + 1) k =
        .error (.generic "Verification email did not arrive in time.") := by
      refine ih (i + 1) (fun j hj => ?_)
      have := h (j + 1) (by omega)
      have harith : i + (j + 1) = i + 1 + j := by omega
      rwa [harith] at this
    have h0 : pollAdvances (env i) = true := by
      have := h 0 (by omega)
      simpa using this
    unfold check_inbox_from
    cases henv : env i with
    | netError => exact hrec
    | httpError c => rw [henv, pollAdvances] at h0; cases h0
    | listing success msgs =>
      rw [henv, pollAdvances] at h0
      dsimp only
      cases success with
      | false => simpa using hrec
      | true =>
        simp only [Bool.true_and, Bool.not_eq_true'] at h0
        have hfind : findVerifyMsg msgs = none := by
          cases hf : findVerifyMsg msgs with
          | none => rfl
          | some m => rw [hf] at h0; cases h0
        rw [hfind]
        cases msgs <;> simpa using hrec

/-- A poll whose listing is `success` with a first marker subject makes
check_inbox return that message's id at once. -/
theorem check_inbox_from_found (env : Nat → PollResult) (i rem : Nat)
    (pre rest : List InboxMessage) (m : InboxMessage)
    (henv : env i = .listing true (pre ++ m :: rest))
    (hpre : ∀ x ∈ pre, subjectHasMarker x = false)
    (hm : subjectHasMarker m = true) :
    check_inbox_from env i (rem + 1) = .ok m.id := by
  have hfind : findVerifyMsg (pre ++ m :: rest) = some m :=
    find_first_match subjectHasMarker pre rest m hpre hm
  unfold check_inbox_from
  rw [henv]
  have hne : ((pre ++ m :: rest).isEmpty : Bool) = false := by
    cases pre <;> rfl
  simp [hne, hfind]

/-- When every remaining response is "not ready" (400), a network error, or
a non-raising sub-400 status, the conversion poll loop exhausts its budget,
performs one POST per iteration, and raises the timeout exception. -/
theorem poll_convert_from_timeout (uuid : String) (env : Nat → ConvResult) :
    ∀ rem i, (∀ j, j < rem → convAdvances (env (i + j)) = true) →
      poll_convert_from uuid env i rem =
        (.error (.generic ("Conversion timed out for file " ++ uuid ++ ".")), rem) := by
  intro rem
  induction rem with
  | zero => intro i _; rfl
  | succ k ih =>
    intro i h
    have hrec := ih (i + 1) (fun j hj => by
      have := h (j + 1) (by omega)
      have harith : i + (j + 1) = i + 1 + j := by omega
      rwa [harith] at this)
    have h0 : convAdvances (env i) = true := by
      have := h 0 (by omega)
      simpa using this
    unfold poll_convert_from
    cases henv : env i with
    | netError => simp only [hrec]
    | response code body =>
      rw [henv, convAdvances] at h0
      simp only [Bool.and_eq_true, Bool.or_eq_true, Bool.not_eq_true'] at h0
      obtain ⟨h200, h400⟩ := h0
      dsimp only
      rw [if_neg (by simp [h200])]
      cases h400 with
      | inl hc =>
        rw [if_pos hc]
        simp only [hrec]
      | inr hc =>
        have hlt : code < 400 := by simpa using hc
        rw [if_neg (by simp only [beq_iff_eq]; omega), if_neg (by omega)]
        simp only [hrec]

/-- A run of `k` advancing responses followed by a 200 makes the conversion
poll loop return the 200 body after `k + 1` POSTs. -/
theorem poll_convert_from_success (uuid payload : String) (env : Nat → ConvResult) :
    ∀ k i rem, k < rem →
      (∀ j, j < k → convAdvances (env (i + j)) = true) →
      env (i + k) = .response 200 payload →
      poll_convert_from uuid env i rem = (.ok payload, k + 1) := by
  intro k
  induction k with
  | zero =>
    intro i rem hk hadv h200
    obtain ⟨rem2, rfl⟩ : ∃ r, rem = r + 1 := ⟨rem - 1, by omega⟩
    unfold poll_convert_from
    rw [show i + 0 = i from rfl] at h200
    rw [h200]
    rfl
  | succ k2 ih =>
    intro i rem hk hadv h200
    obtain ⟨rem2, rfl⟩ : ∃ r, rem = r + 1 := ⟨rem - 1, by omega⟩
    have hrec : poll_convert_from uuid env (i + 1) rem2 = (.ok payload, k2 + 1) := by
      refine ih (i + 1) rem2 (by omega) (fun j hj => ?_) ?_
      · have := hadv (j + 1) (by omega)
        have harith : i + (j + 1) = i + 1 + j := by omega
        rwa [harith] at this
      · have harith : i + (k2 + 1) = i + 1 + k2 := by omega
        rwa [harith] at h200
    have h0 : convAdvances (env i) = true := by
      have := hadv 0 (by omega)
      simpa using this
    unfold poll_convert_from
    cases henv : env i with
    | netError => simp only [hrec]
    | response code body =>
      rw [henv, convAdvances] at h0
      simp only [Bool.and_eq_true, Bool.or_eq_true, Bool.not_eq_true'] at h0
      obtain ⟨h200c, h400⟩ := h0
      dsimp only
      rw [if_neg (by simp [h200c])]
      cases h400 with
      | inl hc =>
        rw [if_pos hc]
        simp only [hrec]
      | inr hc =>
        have hlt : code < 400 := by simpa using hc
        rw [if_neg (by simp only [beq_iff_eq]; omega), if_neg (by omega)]
        simp only [hrec]

/-- When every remaining pass finds no returnable link, the
get_verification_link loop returns None. -/
theorem get_verification_link_from_none (env : Nat → VPoll) :
    ∀ rem i, (∀ j, j < rem → vpollAdvances (env (i + j)) = true) →
      get_verification_link_from env i rem = none := by
  intro rem
  induction rem with
  | zero => intro i _; rfl
  | succ k ih =>
    intro i h
    have hrec := ih (i + 1) (fun j hj => by
      have := h (j + 1) (by omega)
      have harith : i + (j + 1) = i + 1 + j := by omega
      rwa [harith] at this)
    have h0 : vpollAdvances (env i) = true := by
      have := h 0 (by omega)
      simpa using this
    unfold get_verification_link_from
    cases henv : env i with
    | raiseExc => exact hrec
    | noResult => exact hrec
    | found html =>
      rw [henv, vpollAdvances] at h0
      dsimp only
      by_cases hpf : html.parseFails = true
      · rw [if_pos hpf]; exact hrec
      · rw [if_neg hpf]
        have hpf2 : html.parseFails = false := by
          revert hpf; cases html.parseFails <;> simp
        rw [hpf2] at h0
        simp only [Bool.false_or] at h0
        cases hf : html.anchors.find? vLinkMatches with
        | none => exact hrec
        | some a =>
          rw [hf] at h0
          dsimp only
          cases ha : a.href with
          | none => exact hrec
          | some lnk => simp [ha] at h0

/-- N applications of the usage-recording block to a stored session add N
to its usage_count. -/
theorem record_usage_iterate (t : String) (N : Nat) :
    record_usage^[N] (.stored { token := some t, usage_count := 0 }) =
      .stored { token := some t, usage_count := N } := by
  induction N with
  | zero => rfl
  | succ k ih => rw [Function.iterate_succ_apply', ih]; rfl

/-- A concrete attempt environment whose registration call raises. -/
def attemptFailEnv : AttemptEnv where
  register := some (.requestError "connection refused")
  inboxPolls := fun _ => .netError
  emailHtml := .ok none
  verify := none
  login := .error (.generic "Login failed: token not found.")

/-- A concrete attempt environment in which every provisioning step
succeeds, logging in with the token "newtok". -/
def attemptOkEnv : AttemptEnv where
  register := none
  inboxPolls := fun _ =>
    .listing true [{ id := "m1", subject := "Please verify email" }]
  emailHtml := .ok (some
    { parseFails := false
      anchors := [{ text := some "Verify my Email"
                    href := some "https://x/verify?token=1" }] })
  verify := none
  login := .ok "newtok"

/-- C1: for every stored Session in which the token is absent (falsy) or
usage_count >= MAX_USAGE, get_valid_token triggers exactly one provisioning
sequence and, when it returns a token, has installed a fresh Session
holding that token with usage_count 0 — so the token is never returned
with the stored usage_count at or above quota. -/
theorem get_valid_token_provisions_when_invalid
    (env : Nat → AttemptEnv) (store : StoreState) (t : String)
    (st2 : StoreState) (n : Nat)
    (hneed : tokenTruthy (load_session store).token = false ∨
      MAX_USAGE ≤ (load_session store).usage_count)
    (hrun : get_valid_token env store = (.ok t, st2, n)) :
    n = 1 ∧ st2 = .stored { token := some t, usage_count := 0 } ∧
      (load_session st2).usage_count < MAX_USAGE := by
  unfold get_valid_token at hrun
  rw [if_pos hneed] at hrun
  rcases hc : create_new_session env store with ⟨r, st3, k⟩
  rw [hc] at hrun
  cases r with
  | error e => cases hrun
  | ok s =>
    have hinfo := create_new_session_from_ok env store MAX_REGISTRATION_ATTEMPTS 0 s st3 k hc
    obtain ⟨hst, hu, tk, htk⟩ := hinfo
    dsimp only at hrun
    simp only [Prod.mk.injEq, Except.ok.injEq] at hrun
    obtain ⟨hrt, hstEq, hn⟩ := hrun
    rcases s with ⟨stok, susage⟩
    dsimp only at hu htk
    subst hu
    subst htk
    simp only [Option.getD_some] at hrt
    subst hrt
    subst hstEq
    refine ⟨hn.symm, hst, ?_⟩
    rw [hst]
    dsimp [load_session, MAX_USAGE]
    omega

/-- C1 witness: store `{token: "abc", usage_count: 5}` with a succeeding
provisioning environment. -/
theorem get_valid_token_provisions_when_invalid_witness :
    (tokenTruthy (load_session
        (StoreState.stored { token := some "abc", usage_count := 5 })).token = false ∨
      MAX_USAGE ≤ (load_session
        (StoreState.stored { token := some "abc", usage_count := 5 })).usage_count) ∧
    get_valid_token (fun _ => attemptOkEnv)
        (.stored { token := some "abc", usage_count := 5 }) =
      (.ok "newtok", .stored { token := some "newtok", usage_count := 0 }, 1) ∧
    (1 = 1 ∧ StoreState.stored { token := some "newtok", usage_count := 0 } =
        .stored { token := some "newtok", usage_count := 0 } ∧
      (load_session
        (StoreState.stored { token := some "newtok", usage_count := 0 })).usage_count <
          MAX_USAGE) :=
  ⟨by decide, by rfl,
    get_valid_token_provisions_when_invalid (fun _ => attemptOkEnv)
      (.stored { token := some "abc", usage_count := 5 }) "newtok"
      (.stored { token := some "newtok", usage_count := 0 }) 1
      (by decide) (by rfl)⟩

/-- C2: for every stored Session with a non-empty token and
usage_count < MAX_USAGE, get_valid_token returns that exact token,
performs no provisioning call, and leaves the stored Session unchanged. -/
theorem get_valid_token_reuses_valid_token (env : Nat → AttemptEnv)
    (t : String) (c : Nat) (ht : t ≠ "") (hc : c < MAX_USAGE) :
    get_valid_token env (.stored { token := some t, usage_count := c }) =
      (.ok t, .stored { token := some t, usage_count := c }, 0) := by
  have hcond : ¬(tokenTruthy (load_session
        (StoreState.stored { token := some t, usage_count := c })).token = false ∨
      MAX_USAGE ≤ (load_session
        (StoreState.stored { token := some t, usage_count := c })).usage_count) := by
    rintro (h1 | h2)
    · simp [load_session, tokenTruthy] at h1
      exact ht h1
    · dsimp [load_session] at h2
      rw [show MAX_USAGE = 5 from rfl] at h2 hc
      omega
  unfold get_valid_token
  rw [if_neg hcond]
  rfl

/-- C2 witness: the spec scenario `{token: "abc", usage_count: 4}` with
MAX_USAGE = 5. -/
theorem get_valid_token_reuses_valid_token_witness :
    ("abc" ≠ "") ∧ 4 < MAX_USAGE ∧
    get_valid_token (fun _ => attemptOkEnv)
        (.stored { token := some "abc", usage_count := 4 }) =
      (.ok "abc", .stored { token := some "abc", usage_count := 4 }, 0) :=
  ⟨by decide, by decide,
    get_valid_token_reuses_valid_token (fun _ => attemptOkEnv) "abc" 4
      (by decide) (by decide)⟩

/-- C3: recording usage loads the Session, adds exactly 1 to usage_count
and persists it; N sequential recordings starting from a fresh session
yield usage_count == N; and when N == MAX_USAGE the next get_valid_token
triggers provisioning. -/
theorem record_usage_increments (t : String) (N : Nat) (env : Nat → AttemptEnv)
    (st : StoreState) :
    (load_session (record_usage st)).usage_count = (load_session st).usage_count + 1 ∧
    record_usage^[N] (.stored { token := some t, usage_count := 0 }) =
      .stored { token := some t, usage_count := N } ∧
    (N = MAX_USAGE →
      (get_valid_token env
        (record_usage^[N] (.stored { token := some t, usage_count := 0 }))).2.2 = 1) := by
  refine ⟨?_, record_usage_iterate t N, ?_⟩
  · cases st <;> rfl
  · intro hN
    rw [record_usage_iterate t N, hN]
    refine get_valid_token_count_one env _ (Or.inr ?_)
    dsimp [load_session]
    exact Nat.le_refl _

/-- C3 witness: five recordings on `{token: "abc", usage_count: 0}`. -/
theorem record_usage_increments_witness :
    (load_session (record_usage
        (.stored { token := some "abc", usage_count := 2 }))).usage_count =
      (load_session
        (StoreState.stored { token := some "abc", usage_count := 2 })).usage_count + 1 ∧
    record_usage^[5] (.stored { token := some "abc", usage_count := 0 }) =
      .stored { token := some "abc", usage_count := 5 } ∧
    (5 = MAX_USAGE →
      (get_valid_token (fun _ => attemptOkEnv)
        (record_usage^[5] (.stored { token := some "abc", usage_count := 0 }))).2.2 = 1) :=
  record_usage_increments "abc" 5 (fun _ => attemptOkEnv)
    (.stored { token := some "abc", usage_count := 2 })

/-- C4: when every provisioning attempt raises, create_new_session runs
exactly MAX_REGISTRATION_ATTEMPTS attempts, catching each attempt's error
at the attempt boundary rather than re-raising it, then raises the
exhaustion exception, and the stored Session is never written on this
path. -/
theorem create_new_session_exhaustion (env : Nat → AttemptEnv) (store : StoreState)
    (hfail : ∀ i, i < MAX_REGISTRATION_ATTEMPTS → attemptFails (env i) = true) :
    create_new_session env store =
      (.error (.generic "Failed to create a new session after multiple attempts."),
        store, MAX_REGISTRATION_ATTEMPTS) := by
  unfold create_new_session
  exact create_new_session_from_all_fail env store MAX_REGISTRATION_ATTEMPTS 0
    (fun j hj => by simpa using hfail j hj)

/-- C4 witness: five attempts that all fail at registration, on the store
`{token: "abc", usage_count: 5}`. -/
theorem create_new_session_exhaustion_witness :
    (∀ i, i < MAX_REGISTRATION_ATTEMPTS →
      attemptFails ((fun _ => attemptFailEnv) i) = true) ∧
    create_new_session (fun _ => attemptFailEnv)
        (.stored { token := some "abc", usage_count := 5 }) =
      (.error (.generic "Failed to create a new session after multiple attempts."),
        .stored { token := some "abc", usage_count := 5 }, MAX_REGISTRATION_ATTEMPTS) :=
  ⟨by decide,
    create_new_session_exhaustion (fun _ => attemptFailEnv)
      (.stored { token := some "abc", usage_count := 5 }) (by decide)⟩

/-- C5: the conversion poll loop resubmits on the not-ready status 400
after a fixed interval, up to the 90-second budget of
max_wait_time // poll_interval submissions: three not-ready responses
followed by a 200 yield the success payload after exactly 3 retries
(4 POSTs), and a budget in which success never arrives ends in the
conversion-timeout exception. -/
theorem poll_and_convert_retry_behaviour
    (uuid payload : String) (env fruitless : Nat → ConvResult) (b : Nat → String)
    (h1 : ∀ i, i < 3 → env i = .response 400 (b i))
    (h2 : env 3 = .response 200 payload)
    (hTO : ∀ i, i < max_wait_time / poll_interval → convAdvances (fruitless i) = true) :
    poll_and_convert_statement uuid env = (.ok payload, 3 + 1) ∧
    poll_and_convert_statement uuid fruitless =
      (.error (.generic ("Conversion timed out for file " ++ uuid ++ ".")),
        max_wait_time / poll_interval) := by
  constructor
  · unfold poll_and_convert_statement
    refine poll_convert_from_success uuid payload env 3 0 (max_wait_time / poll_interval)
      (by decide) (fun j hj => ?_) (by simpa using h2)
    have hji := h1 j hj
    simp only [Nat.zero_add, hji]
    rfl
  · unfold poll_and_convert_statement
    exact poll_convert_from_timeout uuid fruitless (max_wait_time / poll_interval) 0
      (fun j hj => by simpa using hTO j hj)

/-- C5 witness: three 400 responses then a 200, and an all-400
environment. -/
theorem poll_and_convert_retry_behaviour_witness :
    (∀ i, i < 3 → (fun i => if i < 3 then ConvResult.response 400 "PROCESSING"
        else ConvResult.response 200 "csv,data") i =
      .response 400 ((fun _ => "PROCESSING") i)) ∧
    ((fun i => if i < 3 then ConvResult.response 400 "PROCESSING"
        else ConvResult.response 200 "csv,data") 3 = .response 200 "csv,data") ∧
    (∀ i, i < max_wait_time / poll_interval →
      convAdvances ((fun _ => ConvResult.response 400 "PROCESSING") i) = true) ∧
    (poll_and_convert_statement "u1"
        (fun i => if i < 3 then ConvResult.response 400 "PROCESSING"
          else ConvResult.response 200 "csv,data") = (.ok "csv,data", 3 + 1) ∧
      poll_and_convert_statement "u1" (fun _ => ConvResult.response 400 "PROCESSING") =
        (.error (.generic ("Conversion timed out for file " ++ "u1" ++ ".")),
          max_wait_time / poll_interval)) :=
  ⟨by decide, by decide, by decide,
    poll_and_convert_retry_behaviour "u1" "csv,data"
      (fun i => if i < 3 then ConvResult.response 400 "PROCESSING"
        else ConvResult.response 200 "csv,data")
      (fun _ => ConvResult.response 400 "PROCESSING")
      (fun _ => "PROCESSING") (by decide) (by decide) (by decide)⟩

/-- C6: check_inbox returns the id of the first inbox message whose subject
case-insensitively contains "verify email", ignoring non-matching messages,
and raises its timeout once the 15-poll budget elapses with no match; and
the extracted link is the href of the first anchor whose text
case-insensitively contains "verify my email". -/
theorem email_resolution_first_match
    (polls fruitless : Nat → PollResult) (pre rest : List InboxMessage)
    (m : InboxMessage) (apre arest : List Anchor) (a : Anchor) (h : Html)
    (h0 : polls 0 = .listing true (pre ++ m :: rest))
    (hpre : ∀ x ∈ pre, subjectHasMarker x = false)
    (hm : subjectHasMarker m = true)
    (hTO : ∀ i, i < MAX_INBOX_RETRIES → pollAdvances (fruitless i) = true)
    (hhp : h.parseFails = false)
    (hanch : h.anchors = apre ++ a :: arest)
    (hapre : ∀ x ∈ apre, anchorTextMarker x = false)
    (ha : anchorTextMarker a = true) :
    check_inbox polls = .ok m.id ∧
    check_inbox fruitless =
      .error (.generic "Verification email did not arrive in time.") ∧
    extract_verification_link_from_html h = a.href := by
  refine ⟨?_, ?_, ?_⟩
  · unfold check_inbox MAX_INBOX_RETRIES
    exact check_inbox_from_found polls 0 14 pre rest m h0 hpre hm
  · unfold check_inbox
    exact check_inbox_from_timeout fruitless MAX_INBOX_RETRIES 0
      (fun j hj => by simpa using hTO j hj)
  · unfold extract_verification_link_from_html
    rw [if_neg (by simp [hhp]), hanch,
      find_first_match anchorTextMarker apre arest a hapre ha]

/-- C6 witness: the spec scenario — a non-matching message followed by
"Please verify email", a fruitless mailbox, and a body whose second anchor
reads "Verify my Email" and links to https://x/verify?token=1. -/
theorem email_resolution_first_match_witness :
    ((fun _ => PollResult.listing true
        [{ id := "m0", subject := "Welcome aboard" },
         { id := "m1", subject := "Please verify email" }]) 0 =
      .listing true ([{ id := "m0", subject := "Welcome aboard" }] ++
        { id := "m1", subject := "Please verify email" } :: [])) ∧
    (∀ x ∈ [({ id := "m0", subject := "Welcome aboard" } : InboxMessage)],
      subjectHasMarker x = false) ∧
    subjectHasMarker { id := "m1", subject := "Please verify email" } = true ∧
    (∀ i, i < MAX_INBOX_RETRIES →
      pollAdvances ((fun _ => PollResult.listing true
        [{ id := "m9", subject := "Your invoice" }]) i) = true) ∧
    (∀ x ∈ [({ text := some "Unsubscribe", href := some "https://x/u" } : Anchor)],
      anchorTextMarker x = false) ∧
    anchorTextMarker
      { text := some "Verify my Email", href := some "https://x/verify?token=1" } = true ∧
    (check_inbox (fun _ => PollResult.listing true
        [{ id := "m0", subject := "Welcome aboard" },
         { id := "m1", subject := "Please verify email" }]) = .ok "m1" ∧
      check_inbox (fun _ => PollResult.listing true
        [{ id := "m9", subject := "Your invoice" }]) =
        .error (.generic "Verification email did not arrive in time.") ∧
      extract_verification_link_from_html
        { parseFails := false
          anchors := [{ text := some "Unsubscribe", href := some "https://x/u" },
            { text := some "Verify my Email", href := some "https://x/verify?token=1" }] } =
        some "https://x/verify?token=1") :=
  ⟨by decide, by decide, by decide, by decide, by decide, by decide,
    email_resolution_first_match
      (fun _ => PollResult.listing true
        [{ id := "m0", subject := "Welcome aboard" },
         { id := "m1", subject := "Please verify email" }])
      (fun _ => PollResult.listing true [{ id := "m9", subject := "Your invoice" }])
      [{ id := "m0", subject := "Welcome aboard" }] []
      { id := "m1", subject := "Please verify email" }
      [{ text := some "Unsubscribe", href := some "https://x/u" }] []
      { text := some "Verify my Email", href := some "https://x/verify?token=1" }
      { parseFails := false
        anchors := [{ text := some "Unsubscribe", href := some "https://x/u" },
          { text := some "Verify my Email", href := some "https://x/verify?token=1" }] }
      (by decide) (by decide) (by decide) (by decide) (by decide) (by decide)
      (by decide) (by decide)⟩

/-- C7 counterexample: when the 15-poll budget of check_inbox is exhausted
with no matching message, the resolver raises the builtin generic
`Exception` class (the same class every other provisioning failure uses),
not a distinct typed VerificationTimeout. -/
theorem check_inbox_timeout_raises_generic_exception :
    check_inbox (fun _ => PollResult.listing true []) =
      .error (.generic "Verification email did not arrive in time.") ∧
    isGenericExc (PyExc.generic "Verification email did not arrive in time.") = true ∧
    isGenericExc (PyExc.generic "Failed to read email content, cannot verify.") = true := by
  exact ⟨by decide, rfl, rfl⟩

/-- C7 (amended): on budget exhaustion without a match, the Redis
variant's get_verification_link returns the typed absence None, while the
file variant's check_inbox raises a generic `Exception` whose fixed
message — not its type — distinguishes the timeout. -/
theorem verification_absence_signalling
    (env : Nat → VPoll) (polls : Nat → PollResult)
    (h3 : ∀ i, i < 3 → vpollAdvances (env i) = true)
    (h15 : ∀ i, i < MAX_INBOX_RETRIES → pollAdvances (polls i) = true) :
    get_verification_link env = none ∧
    check_inbox polls =
      .error (.generic "Verification email did not arrive in time.") := by
  constructor
  · unfold get_verification_link
    exact get_verification_link_from_none env 3 0 (fun j hj => by simpa using h3 j hj)
  · unfold check_inbox
    exact check_inbox_from_timeout polls MAX_INBOX_RETRIES 0
      (fun j hj => by simpa using h15 j hj)

/-- C7 witness: an always-empty Redis-variant inbox and an always-failing
file-variant mailbox. -/
theorem verification_absence_signalling_witness :
    (∀ i, i < 3 → vpollAdvances ((fun _ => VPoll.noResult) i) = true) ∧
    (∀ i, i < MAX_INBOX_RETRIES → pollAdvances ((fun _ => PollResult.netError) i) = true) ∧
    (get_verification_link (fun _ => VPoll.noResult) = none ∧
      check_inbox (fun _ => PollResult.netError) =
        .error (.generic "Verification email did not arrive in time.")) :=
  ⟨by decide, by decide,
    verification_absence_signalling (fun _ => VPoll.noResult)
      (fun _ => PollResult.netError) (by decide) (by decide)⟩

/-- C8 counterexample: on an unreadable session file, main.load_session
silently substitutes the default empty session, so get_valid_token runs a
full provisioning sequence (here failing through to the exhaustion error)
instead of surfacing a store failure without provisioning. -/
theorem corrupt_store_read_still_provisions :
    get_valid_token (fun _ => attemptFailEnv) StoreState.corrupt =
      (.error (.generic "Failed to create a new session after multiple attempts."),
        StoreState.corrupt, 1) := by
  decide

/-- C8 (amended): only the Redis variant surfaces store unavailability
immediately — convert_bank_statement returns HTTPException 503 with no
provisioning call and no state change; the file variant masks a failed
store read as the default empty session, and get_valid_token then triggers
one provisioning sequence instead of failing fast. -/
theorem store_unavailable_handling
    (provision : Except PyExc String) (st : RedisState) (fPdf : Bool)
    (upload convert : CallResult) (env : Nat → AttemptEnv)
    (hun : st.available = false) :
    convert_bank_statement fPdf provision upload convert st =
      (.error (.httpException 503
        "State management service is currently unavailable. Please try again later."),
        st, 0) ∧
    load_session StoreState.corrupt = defaultSession ∧
    (get_valid_token env StoreState.corrupt).2.2 = 1 := by
  refine ⟨?_, rfl, ?_⟩
  · unfold convert_bank_statement
    rw [hun]
    rfl
  · exact get_valid_token_count_one env StoreState.corrupt (Or.inl rfl)

/-- C8 witness: an unavailable Redis client holding credits and a token. -/
theorem store_unavailable_handling_witness :
    ({ available := false, credits := some 3, token := some "tok" } : RedisState).available
      = false ∧
    (convert_bank_statement true (.ok "t2") (.ok "u") (.ok "c")
        { available := false, credits := some 3, token := some "tok" } =
      (.error (.httpException 503
        "State management service is currently unavailable. Please try again later."),
        { available := false, credits := some 3, token := some "tok" }, 0) ∧
      load_session StoreState.corrupt = defaultSession ∧
      (get_valid_token (fun _ => attemptFailEnv) StoreState.corrupt).2.2 = 1) :=
  ⟨by decide,
    store_unavailable_handling (.ok "t2")
      { available := false, credits := some 3, token := some "tok" }
      true (.ok "u") (.ok "c") (fun _ => attemptFailEnv) (by decide)⟩

/-- am_get_valid_token on a state whose credits key holds a positive value
and whose token key is set simply returns the token without provisioning. -/
theorem am_get_valid_token_cached (provision : Except PyExc String)
    (st : RedisState) (c : Int) (tok : String)
    (hc : st.credits = some c) (hcpos : 0 < c) (htok : st.token = some tok) :
    am_get_valid_token provision st = (.ok tok, st, 0) := by
  unfold am_get_valid_token
  rw [if_neg (by simp only [creditsOf, hc]; omega), htok]

/-- am_get_valid_token on a state whose credits key holds 0 calls
create_new_account (one provisioning sequence). -/
theorem am_get_valid_token_zero_credits (provision : Except PyExc String)
    (st : RedisState) (hc : st.credits = some 0) :
    (am_get_valid_token provision st).2.2 = 1 := by
  unfold am_get_valid_token
  rw [if_pos (by simp [creditsOf, hc])]

/-- C9: in the Redis-backed endpoint, a 401 from upload or from conversion
sets the stored credits counter to 0 before the HTTPException is surfaced,
so the next am_get_valid_token call necessarily provisions a new account
instead of reusing the rejected token. -/
theorem unauthorized_zeroes_credits
    (st : RedisState) (provision reprovision : Except PyExc String)
    (c : Int) (tok body utext ctext : String) (upload convert : CallResult)
    (hav : st.available = true) (hc : st.credits = some c) (hcpos : 0 < c)
    (htok : st.token = some tok)
    (h401 : upload = .httpStatus 401 utext ∨
      (upload = .ok body ∧ convert = .httpStatus 401 ctext)) :
    ((convert_bank_statement true provision upload convert st).2.1).credits = some 0 ∧
    ((convert_bank_statement true provision upload convert st).1 =
        .error (.httpException 401 ("Error from backend: " ++ utext)) ∨
      (convert_bank_statement true provision upload convert st).1 =
        .error (.httpException 401 ("Error from backend: " ++ ctext))) ∧
    (am_get_valid_token reprovision
      ((convert_bank_statement true provision upload convert st).2.1)).2.2 = 1 := by
  have hget := am_get_valid_token_cached provision st c tok hc hcpos htok
  have hhandle : endpoint_handle (.httpStatusError 401) utext st =
      (.error (.httpException 401 ("Error from backend: " ++ utext)),
        { st with credits := some 0 }) := by
    unfold endpoint_handle
    dsimp only
    rw [hav]
    rfl
  have hhandle2 : endpoint_handle (.httpStatusError 401) ctext st =
      (.error (.httpException 401 ("Error from backend: " ++ ctext)),
        { st with credits := some 0 }) := by
    unfold endpoint_handle
    dsimp only
    rw [hav]
    rfl
  rcases h401 with hup | ⟨hup, hcv⟩
  · have hres : convert_bank_statement true provision upload convert st =
        (.error (.httpException 401 ("Error from backend: " ++ utext)),
          { st with credits := some 0 }, 0) := by
      unfold convert_bank_statement
      rw [hav, hget, hup]
      dsimp only
      rw [hhandle]
      simp [hav]
    rw [hres]
    exact ⟨rfl, Or.inl rfl, am_get_valid_token_zero_credits reprovision _ rfl⟩
  · have hres : convert_bank_statement true provision upload convert st =
        (.error (.httpException 401 ("Error from backend: " ++ ctext)),
          { st with credits := some 0 }, 0) := by
      unfold convert_bank_statement
      rw [hav, hget, hup, hcv]
      dsimp only
      rw [hhandle2]
      simp [hav]
    rw [hres]
    exact ⟨rfl, Or.inr rfl, am_get_valid_token_zero_credits reprovision _ rfl⟩

/-- C9 witness: a live state with 4 credits and a stored token, whose
conversion call is rejected with 401. -/
theorem unauthorized_zeroes_credits_witness :
    (({ available := true, credits := some 4, token := some "tok" } : RedisState).available
        = true) ∧
    (({ available := true, credits := some 4, token := some "tok" } : RedisState).credits
        = some 4) ∧
    ((0 : Int) < 4) ∧
    (({ available := true, credits := some 4, token := some "tok" } : RedisState).token
        = some "tok") ∧
    ((convert_bank_statement true (.ok "t2") (.ok "uuid1")
          (.httpStatus 401 "expired")
          { available := true, credits := some 4, token := some "tok" }).2.1).credits
        = some 0 ∧
    ((convert_bank_statement true (.ok "t2") (.ok "uuid1")
          (.httpStatus 401 "expired")
          { available := true, credits := some 4, token := some "tok" }).1 =
        .error (.httpException 401 ("Error from backend: " ++ "unused")) ∨
      (convert_bank_statement true (.ok "t2") (.ok "uuid1")
          (.httpStatus 401 "expired")
          { available := true, credits := some 4, token := some "tok" }).1 =
        .error (.httpException 401 ("Error from backend: " ++ "expired"))) ∧
    (am_get_valid_token (.ok "t3")
      ((convert_bank_statement true (.ok "t2") (.ok "uuid1")
          (.httpStatus 401 "expired")
          { available := true, credits := some 4, token := some "tok" }).2.1)).2.2 = 1 :=
  ⟨by decide, by decide, by decide, by decide,
    (unauthorized_zeroes_credits
      { available := true, credits := some 4, token := some "tok" }
      (.ok "t2") (.ok "t3") 4 "tok" "uuid1" "unused" "expired"
      (.ok "uuid1") (.httpStatus 401 "expired")
      (by decide) (by decide) (by decide) (by decide)
      (Or.inr ⟨rfl, rfl⟩)).1,
    (unauthorized_zeroes_credits
      { available := true, credits := some 4, token := some "tok" }
      (.ok "t2") (.ok "t3") 4 "tok" "uuid1" "unused" "expired"
      (.ok "uuid1") (.httpStatus 401 "expired")
      (by decide) (by decide) (by decide) (by decide)
      (Or.inr ⟨rfl, rfl⟩)).2.1,
    (unauthorized_zeroes_credits
      { available := true, credits := some 4, token := some "tok" }
      (.ok "t2") (.ok "t3") 4 "tok" "uuid1" "unused" "expired"
      (.ok "uuid1") (.httpStatus 401 "expired")
      (by decide) (by decide) (by decide) (by decide)
      (Or.inr ⟨rfl, rfl⟩)).2.2⟩

/-- C10: extract_verification_link_from_html is total — on every parsed
document it returns the href of the first anchor whose text
case-insensitively contains "verify my email" (None when that anchor has
no href attribute), None when no anchor matches, and None when parsing or
searching raises (the exception is caught, never propagated). -/
theorem extract_link_totality
    (hbad good noHit : Html) (apre arest : List Anchor) (a : Anchor)
    (hbadp : hbad.parseFails = true)
    (hgp : good.parseFails = false)
    (hganch : good.anchors = apre ++ a :: arest)
    (hapre : ∀ x ∈ apre, anchorTextMarker x = false)
    (ha : anchorTextMarker a = true)
    (hnp : noHit.parseFails = false)
    (hnone : ∀ x ∈ noHit.anchors, anchorTextMarker x = false) :
    extract_verification_link_from_html hbad = none ∧
    extract_verification_link_from_html good = a.href ∧
    extract_verification_link_from_html noHit = none := by
  refine ⟨?_, ?_, ?_⟩
  · unfold extract_verification_link_from_html
    rw [if_pos hbadp]
  · unfold extract_verification_link_from_html
    rw [if_neg (by simp [hgp]), hganch,
      find_first_match anchorTextMarker apre arest a hapre ha]
  · unfold extract_verification_link_from_html
    rw [if_neg (by simp [hnp])]
    have hfind : noHit.anchors.find? anchorTextMarker = none := by
      rw [List.find?_eq_none]
      intro x hx
      simp [hnone x hx]
    rw [hfind]

/-- C10 witness: a raising parse, a matching anchor that lacks an href
(returning None, not raising), and a document with no matching anchor. -/
theorem extract_link_totality_witness :
    ({ parseFails := true, anchors := [] } : Html).parseFails = true ∧
    ({ parseFails := false,
        anchors := [{ text := some "Verify my Email", href := none }] } : Html).parseFails
      = false ∧
    anchorTextMarker { text := some "Verify my Email", href := none } = true ∧
    ({ parseFails := false, anchors := [{ text := none, href := some "x" }] } : Html).parseFails
      = false ∧
    (∀ x ∈ [({ text := none, href := some "x" } : Anchor)], anchorTextMarker x = false) ∧
    (extract_verification_link_from_html { parseFails := true, anchors := [] } = none ∧
      extract_verification_link_from_html
          { parseFails := false,
            anchors := [{ text := some "Verify my Email", href := none }] } =
        ({ text := some "Verify my Email", href := none } : Anchor).href ∧
      extract_verification_link_from_html
          { parseFails := false, anchors := [{ text := none, href := some "x" }] } = none) :=
  ⟨by decide, by decide, by decide, by decide, by decide,
    extract_link_totality
      { parseFails := true, anchors := [] }
      { parseFails := false,
        anchors := [{ text := some "Verify my Email", href := none }] }
      { parseFails := false, anchors := [{ text := none, href := some "x" }] }
      [] [] { text := some "Verify my Email", href := none }
      (by decide) (by decide) (by decide) (by decide) (by decide)
      (by decide) (by decide)⟩

end BankConv
